import Mathlib

/-!
Shallow embedding of `libs/vr/libvrflinger/display_manager_service.cpp`
(the vrflinger display-manager IPC endpoint) and proofs about its
channel-admission policy, single-session invariant, notification-pending
protocol and per-request handlers.

The external collaborators (the pdx transport substrate, the display
service's surface registry, the Android property/file store and the
trusted-uid allow-list) are not part of the translated source file; they
are modelled as parameters or oracle fields, following the spec's
collaborator contracts.
-/

namespace Dvr

/-- Modelled from the spec: the platform root identity (`AID_ROOT` from
`android_filesystem_config.h`, which is not part of the translated source)
is uid 0. -/
def AID_ROOT : Int := 0

/-- Errno value `EPERM` used by `RemoteMethodError(message, EPERM)` and
`ErrorStatus(EPERM)`. -/
def EPERM : Nat := 1

/-- Errno value `ENOENT` returned when a configuration property is unset. -/
def ENOENT : Nat := 2

/-- Errno value `EINVAL` returned for bad surface/queue ids and unmapped
configuration types. -/
def EINVAL : Nat := 22

/-- Poll event bit `POLLIN` from `sys/poll.h` (0x001): the
readable-for-events ("data available") readiness signal. -/
def POLLIN : Nat := 1

/-- Poll event bit `POLLOUT` from `sys/poll.h` (0x004): the writable/idle
readiness signal.  The translated source never passes it to
`ModifyChannelEvents`. -/
def POLLOUT : Nat := 4

/-- The trust check of the source, used both at channel admission and in
`OnSetupNamedBuffer`:
`user_id == AID_ROOT || IsTrustedUid(user_id)`.
`IsTrustedUid` lives in `private/dvr/trusted_uids.h`, outside the
translated source, so it is a parameter `tid` of every definition
(the spec describes it as membership in a platform-maintained
trusted-identity set). -/
def trusted (tid : Int → Bool) (user_id : Int) : Bool :=
  user_id == AID_ROOT || tid user_id

/-- Surface type tag from `display_protocol.h`; `OnGetSurfaceState` and
`OnGetSurfaceQueue` only accept surfaces of `Application` type. -/
inductive SurfaceType
  | Direct
  | Application
deriving DecidableEq

/-- Modelled from the spec: a buffer queue owned by an application display
surface.  `createConsumerQueueHandle` is the oracle result of the
collaborator call `queue->CreateConsumerQueueHandle()` (code outside the
translated source): either a transferable consumer-endpoint handle or an
internal error code. -/
structure QueueModel where
  id : Int
  createConsumerQueueHandle : Except Nat Nat

/-- Modelled from the spec: one entry of the display service's surface
registry (class `DisplaySurface`, outside the translated source), holding
exactly the accessors the translated handlers read. -/
structure DisplaySurface where
  surface_id : Int
  process_id : Int
  user_id : Int
  surface_type : SurfaceType
  attributes : Nat
  update_flags : Nat
  queues : List QueueModel

/-- Modelled from the spec: `GetQueueIds` lists the ids of the surface's
queues. -/
def DisplaySurface.GetQueueIds (s : DisplaySurface) : List Int :=
  s.queues.map (fun q => q.id)

/-- Modelled from the spec: `ClearUpdate` resets the surface's internal
update-flags (mark-as-seen). -/
def DisplaySurface.ClearUpdate (s : DisplaySurface) : DisplaySurface :=
  { s with update_flags := 0 }

/-- Modelled from the spec: `GetQueue(queue_id)` looks a queue up by id. -/
def DisplaySurface.GetQueue (s : DisplaySurface) (queue_id : Int) :
    Option QueueModel :=
  s.queues.find? (fun q => q.id == queue_id)

/-- The value `display::SurfaceState` returned to the client per
application surface by `OnGetSurfaceState`. -/
structure SurfaceState where
  surface_id : Int
  process_id : Int
  user_id : Int
  attributes : Nat
  update_flags : Nat
  queue_ids : List Int
deriving DecidableEq

/-- The snapshot pushed by the visit lambda of `OnGetSurfaceState`:
`{surface->surface_id(), surface->process_id(), surface->user_id(),
surface->attributes(), surface->update_flags(), surface->GetQueueIds()}`,
taken before `surface->ClearUpdate()` runs. -/
def toSurfaceState (s : DisplaySurface) : SurfaceState :=
  ⟨s.surface_id, s.process_id, s.user_id, s.attributes, s.update_flags,
    s.GetQueueIds⟩

/-- The `DisplayManager` channel object: the single admitted privileged
session.  `channel_id` is the transport handle it was bound to at
admission; `events` is the transport readiness mask that
`ModifyChannelEvents` maintains for this channel (the notification-pending
flag is its `POLLIN` bit). -/
structure DisplayManager where
  channel_id : Int
  events : Nat
deriving DecidableEq

/-- Modelled from the spec: the transport substrate's
`ModifyReadiness(channel_handle, clear_mask, set_mask) -> Status`
(`Service::ModifyChannelEvents` of libpdx, outside the translated source).
On success it clears the bits of `clearMask` and sets the bits of
`setMask` in the channel's readiness mask; on failure (`fail = some e`)
it reports the error and leaves the mask unchanged.
`m - (m &&& c)` is `m` with the bits of `c` cleared. -/
def modifyChannelEvents (fail : Option Nat) (events clearMask setMask : Nat) :
    Except Nat Unit × Nat :=
  match fail with
  | some e => (Except.error e, events)
  | none => (Except.ok (), (events - (events &&& clearMask)) ||| setMask)

/-- Translation of `DisplayManager::SetNotificationsPending`: calls
`ModifyChannelEvents(channel_id_, pending ? 0 : POLLIN,
pending ? POLLIN : 0)` and discards the returned status (a failure is only
logged by `ALOGE_IF`).  `fail` is the transport oracle; the main state
machine instantiates it with `none` (reliable transport). -/
def DisplayManager.SetNotificationsPending (fail : Option Nat)
    (dm : DisplayManager) (pending : Bool) : DisplayManager :=
  let r := modifyChannelEvents fail dm.events
    (if pending then 0 else POLLIN) (if pending then POLLIN else 0)
  { dm with events := r.2 }

/-- State of the `DisplayManagerService` endpoint together with the
environment pieces the translated handlers read:
 - `display_manager` is the member `display_manager_` (the sole live
   session, or none);
 - `surfaces` is the display service's current surface registry
   (collaborator state, modelled from the spec);
 - `openChannels` is the transport substrate's bookkeeping of which
   channel handles are currently open on this endpoint (modelled from the
   spec: an accepted `OnChannelOpen` leaves the channel open, a rejected
   one does not, and `ChannelClose` removes it). -/
structure ServiceState where
  display_manager : Option DisplayManager
  surfaces : List DisplaySurface
  openChannels : List Int

/-- Initial endpoint state: no admitted session, no open channel, an
arbitrary initial surface registry. -/
def initState (surfaces : List DisplaySurface) : ServiceState :=
  ⟨none, surfaces, []⟩

/-- Translation of `DisplayManagerService::OnChannelOpen`: reads the
message's effective user id and channel id, computes
`trusted = user_id == AID_ROOT || IsTrustedUid(user_id)`, rejects with
`EPERM` if `display_manager_ || !trusted`, and otherwise records a new
`DisplayManager` bound to the message's channel id as the sole live
session (the accepted channel also becomes open at transport level). -/
def OnChannelOpen (tid : Int → Bool) (s : ServiceState)
    (user_id channel_id : Int) : Except Nat DisplayManager × ServiceState :=
  if s.display_manager.isSome || !(trusted tid user_id) then
    (Except.error EPERM, s)
  else
    let dm : DisplayManager := ⟨channel_id, 0⟩
    (Except.ok dm,
      { s with display_manager := some dm,
               openChannels := s.openChannels ++ [channel_id] })

/-- Translation of `DisplayManagerService::OnChannelClose`: if the closing
channel is the live `DisplayManager`, clear the live-session slot;
the transport forgets the closed channel either way. -/
def OnChannelClose (s : ServiceState) (channel_id : Int) : ServiceState :=
  let dm' :=
    match s.display_manager with
    | some dm => if dm.channel_id == channel_id then none else some dm
    | none => none
  { s with display_manager := dm',
           openChannels := s.openChannels.erase channel_id }

/-- The snapshot list built by the `ForEachDisplaySurface(Application, ...)`
loop of `OnGetSurfaceState`: one `SurfaceState` per application surface,
in registry enumeration order. -/
def getSurfaceStateItems (surfaces : List DisplaySurface) :
    List SurfaceState :=
  (surfaces.filter (fun s => s.surface_type == SurfaceType.Application)).map
    toSurfaceState

/-- The registry after the same loop: `surface->ClearUpdate()` has run on
every enumerated (application) surface; other surfaces are untouched. -/
def clearUpdates (surfaces : List DisplaySurface) : List DisplaySurface :=
  surfaces.map (fun s =>
    if s.surface_type == SurfaceType.Application then s.ClearUpdate else s)

/-- Translation of `DisplayManagerService::OnGetSurfaceState`: builds the
snapshot list while clearing each enumerated surface's update-flags, then
dereferences `display_manager_` without a null check to call
`SetNotificationsPending(false)`.  The `none` result models that unchecked
dereference when no live session exists (undefined behaviour in the
source); otherwise the handler always succeeds with the item list. -/
def OnGetSurfaceState (s : ServiceState) :
    Option (List SurfaceState × ServiceState) :=
  match s.display_manager with
  | none => none
  | some dm =>
    some (getSurfaceStateItems s.surfaces,
      { s with surfaces := clearUpdates s.surfaces,
               display_manager :=
                 some (dm.SetNotificationsPending none false) })

/-- Modelled from the spec: `DisplayService::GetDisplaySurface` looks a
surface up by id in the registry. -/
def getDisplaySurface (surfaces : List DisplaySurface) (surface_id : Int) :
    Option DisplaySurface :=
  surfaces.find? (fun s => s.surface_id == surface_id)

/-- Translation of `DisplayManagerService::OnGetSurfaceQueue`: `EINVAL` if
the surface is missing or not of application type, `EINVAL` if the queue
is missing, otherwise the (logged but unmodified) status of
`queue->CreateConsumerQueueHandle()`. -/
def OnGetSurfaceQueue (surfaces : List DisplaySurface)
    (surface_id queue_id : Int) : Except Nat Nat :=
  match getDisplaySurface surfaces surface_id with
  | none => Except.error EINVAL
  | some surface =>
    if surface.surface_type != SurfaceType.Application then
      Except.error EINVAL
    else
      match surface.GetQueue queue_id with
      | none => Except.error EINVAL
      | some queue => queue.createConsumerQueueHandle

/-- Modelled from the spec: the display-service collaborator behind
`OnSetupNamedBuffer`.  `SetupNamedBuffer` itself lives outside the
translated source, so its result is the oracle `namedBufferResult`;
`namedBufferCalls` is a ghost log recording every invocation of the
collaborator, used to state that an untrusted request never invokes it. -/
structure DisplayServiceModel where
  namedBufferResult : String → Nat → Nat → Except Nat Nat
  namedBufferCalls : List (String × Nat × Nat)

/-- Modelled from the spec:
`DisplayService::SetupNamedBuffer(name, size, usage)` returns its oracle
result and logs the invocation. -/
def DisplayServiceModel.SetupNamedBuffer (d : DisplayServiceModel)
    (name : String) (size usage : Nat) :
    Except Nat Nat × DisplayServiceModel :=
  (d.namedBufferResult name size usage,
    { d with namedBufferCalls := d.namedBufferCalls ++ [(name, size, usage)] })

/-- Translation of `DisplayManagerService::OnSetupNamedBuffer`: re-checks
the per-message identity with the same trust predicate as admission;
untrusted requesters get `EPERM` and the collaborator is not invoked,
trusted requests are forwarded to
`display_service_->SetupNamedBuffer(name, size, usage)` and its result is
returned unchanged. -/
def OnSetupNamedBuffer (tid : Int → Bool) (svc : DisplayServiceModel)
    (user_id : Int) (name : String) (size usage : Nat) :
    Except Nat Nat × DisplayServiceModel :=
  if !(trusted tid user_id) then
    (Except.error EPERM, svc)
  else
    svc.SetupNamedBuffer name size usage

/-- The configuration-type selector of `OnGetConfigurationData`.  The
`unmapped` constructor stands for any wire value outside the three mapped
enumerators (the `default:` branch of the switch). -/
inductive ConfigFileType
  | kLensMetrics
  | kDeviceMetrics
  | kDeviceConfiguration
  | unmapped (value : Nat)
deriving DecidableEq

/-- Property name constant `kDvrLensMetricsProperty`. -/
def kDvrLensMetricsProperty : String := "ro.dvr.lens_metrics"

/-- Property name constant `kDvrDeviceMetricsProperty`. -/
def kDvrDeviceMetricsProperty : String := "ro.dvr.device_metrics"

/-- Property name constant `kDvrDeviceConfigProperty`. -/
def kDvrDeviceConfigProperty : String := "ro.dvr.device_configuration"

/-- Modelled from the spec: the property/file store collaborator
(`base::GetProperty` and `base::ReadFileToString`, outside the translated
source).  `getProperty` returns the stored string or the default `""`;
`readFile` returns the file's byte contents or the errno of the failed
read. -/
structure Env where
  getProperty : String → String
  readFile : String → Except Nat String

/-- Translation of `DisplayManagerService::OnGetConfigurationData`: maps
the config type to its fixed property name (`EINVAL` on the `default:`
branch), `ENOENT` if the property resolves to an empty path, the errno of
a failed read, or the file's exact contents. -/
def OnGetConfigurationData (env : Env) (config_type : ConfigFileType) :
    Except Nat String :=
  match config_type with
  | ConfigFileType.unmapped _ => Except.error EINVAL
  | _ =>
    let property_name :=
      match config_type with
      | ConfigFileType.kLensMetrics => kDvrLensMetricsProperty
      | ConfigFileType.kDeviceMetrics => kDvrDeviceMetricsProperty
      | _ => kDvrDeviceConfigProperty
    let file_path := env.getProperty property_name
    if file_path = "" then
      Except.error ENOENT
    else
      match env.readFile file_path with
      | Except.error e => Except.error e
      | Except.ok data => Except.ok data

/-- Translation of `DisplayManagerService::OnDisplaySurfaceChange` (the
callback the constructor registers with
`SetDisplayConfigurationUpdateNotifier`): if a live session exists, arm
its notifications; otherwise do nothing. -/
def OnDisplaySurfaceChange (s : ServiceState) : ServiceState :=
  match s.display_manager with
  | some dm =>
    { s with
      display_manager := some (dm.SetNotificationsPending none true) }
  | none => s

/-- The operation codes a message can carry, as dispatched by
`DisplayManagerService::HandleMessage`. -/
inductive Request
  | getSurfaceState
  | getSurfaceQueue (surface_id queue_id : Int)
  | setupNamedBuffer (name : String) (size usage : Nat)
  | getConfigurationData (config_type : ConfigFileType)

/-- The per-operation reply payloads returned through the transport. -/
inductive Reply
  | surfaceStateR (r : List SurfaceState)
  | queueHandleR (r : Except Nat Nat)
  | namedBufferR (r : Except Nat Nat)
  | configDataR (r : Except Nat String)

/-- Translation of `DisplayManagerService::HandleMessage`: routes the
message op to its handler.  `user_id` is the message's effective user id;
only `OnSetupNamedBuffer` reads it, the other three handlers ignore their
`message` parameter.  A `none` result is the unchecked null dereference
inside `OnGetSurfaceState`. -/
def HandleMessage (tid : Int → Bool) (env : Env) (svc : DisplayServiceModel)
    (s : ServiceState) (user_id : Int) :
    Request → Option (Reply × ServiceState × DisplayServiceModel)
  | Request.getSurfaceState =>
    (OnGetSurfaceState s).map
      (fun r => (Reply.surfaceStateR r.1, r.2, svc))
  | Request.getSurfaceQueue sid qid =>
    some (Reply.queueHandleR (OnGetSurfaceQueue s.surfaces sid qid), s, svc)
  | Request.setupNamedBuffer name size usage =>
    let r := OnSetupNamedBuffer tid svc user_id name size usage
    some (Reply.namedBufferR r.1, s, r.2)
  | Request.getConfigurationData t =>
    some (Reply.configDataR (OnGetConfigurationData env t), s, svc)

/-- One external stimulus delivered to the endpoint: a channel-open or
channel-close event from the transport, a `GetSurfaceState` message, any
other message (which does not touch the channel state), or a mutation of
the display service's surface registry (which fires the registered
surface-change callback). -/
inductive Event
  | chanOpen (user_id channel_id : Int)
  | chanClose (channel_id : Int)
  | msgGetSurfaceState (channel_id : Int)
  | msgOther (channel_id : Int)
  | surfaceChange (surfaces : List DisplaySurface)

/-- Small-step semantics of the endpoint: `none` only on the unchecked
dereference in the `GetSurfaceState` handler.  A registry mutation
installs the new registry and then runs the surface-change callback, as
the display-service collaborator does. -/
def step (tid : Int → Bool) (s : ServiceState) : Event → Option ServiceState
  | Event.chanOpen uid cid => some (OnChannelOpen tid s uid cid).2
  | Event.chanClose cid => some (OnChannelClose s cid)
  | Event.msgGetSurfaceState _ => (OnGetSurfaceState s).map (fun r => r.2)
  | Event.msgOther _ => some s
  | Event.surfaceChange σ =>
    some (OnDisplaySurfaceChange { s with surfaces := σ })

/-- Run of a whole event trace. -/
def run (tid : Int → Bool) (s : ServiceState) :
    List Event → Option ServiceState
  | [] => some s
  | e :: tr =>
    match step tid s e with
    | some s' => run tid s' tr
    | none => none

/-- Total variant of `step` used only to phrase the transport contract:
on the undefined-behaviour case it stays in place, so the contract below
is stated without presupposing that the crash never happens. -/
def stepTotal (tid : Int → Bool) (s : ServiceState) (e : Event) :
    ServiceState :=
  (step tid s e).getD s

/-- Modelled from the spec: the per-event side of the transport
substrate's lifecycle contract — a message (and a close event) is only
delivered on a currently open channel; open events are unconstrained. -/
def msgGuard (s : ServiceState) : Event → Bool
  | Event.msgGetSurfaceState cid => s.openChannels.contains cid
  | Event.msgOther cid => s.openChannels.contains cid
  | Event.chanClose cid => s.openChannels.contains cid
  | _ => true

/-- Modelled from the spec: the transport substrate's lifecycle contract
checked along a whole trace. -/
def contractOK (tid : Int → Bool) (s : ServiceState) : List Event → Bool
  | [] => true
  | e :: tr => msgGuard s e && contractOK tid (stepTotal tid s e) tr

/-- The single-session invariant tying the endpoint's live-session slot
to the transport's open channels: with no live session no channel is
open, and with a live session exactly its channel is open. -/
def Inv (s : ServiceState) : Prop :=
  match s.display_manager with
  | none => s.openChannels = []
  | some dm => s.openChannels = [dm.channel_id]

/-- Correspondence between the code's notification-pending flag (the
`POLLIN` bit of the live channel's readiness mask) and the
specification-side flag `f`. -/
def FlagInv (s : ServiceState) (f : Bool) : Prop :=
  ∀ dm, s.display_manager = some dm →
    dm.events = (if f then POLLIN else 0)

/-- Specification-side flag update, following the claim's words (this is
the spec's view of the notification-pending flag, to be compared with the
code's `POLLIN` bit): the flag becomes false at channel creation (a
successful admission) and at each `GetSurfaceState`, becomes true at a
surface mutation while a channel is live, and is otherwise unchanged.
`s` is the state before the event. -/
def specFlagStep (tid : Int → Bool) (s : ServiceState) (f : Bool) :
    Event → Bool
  | Event.chanOpen uid _ =>
    if s.display_manager.isNone && trusted tid uid then false else f
  | Event.msgGetSurfaceState _ => false
  | Event.surfaceChange _ => if s.display_manager.isSome then true else f
  | _ => f

/-- Run of a trace with the specification-side flag computed alongside the
code state. -/
def runFlag (tid : Int → Bool) (s : ServiceState) (f : Bool) :
    List Event → Option (ServiceState × Bool)
  | [] => some (s, f)
  | e :: tr =>
    match step tid s e with
    | some s' => runFlag tid s' (specFlagStep tid s f e) tr
    | none => none

/-! Helper lemmas (shared by several claim proofs). -/

/-- Clearing bit 0 of a mask really leaves bit 0 clear. -/
theorem sub_and_one_and_one (x : Nat) : (x - (x &&& 1)) &&& 1 = 0 := by
  rw [Nat.and_one_is_mod, Nat.and_one_is_mod]
  omega

/-- The propositional reading of the rejection condition of
`OnChannelOpen`. -/
theorem reject_cond_iff (tid : Int → Bool) (s : ServiceState) (uid : Int) :
    (s.display_manager.isSome || !(trusted tid uid)) = true ↔
      (s.display_manager.isSome = true ∨
        ¬(uid = AID_ROOT ∨ tid uid = true)) := by
  simp [trusted, not_or]

/-- Every surface of application type in the registry left behind by the
enumeration loop has cleared update-flags. -/
theorem clearUpdates_app_flags (surfaces : List DisplaySurface) :
    ∀ t ∈ clearUpdates surfaces,
      t.surface_type = SurfaceType.Application → t.update_flags = 0 := by
  intro t ht happ
  simp only [clearUpdates, List.mem_map] at ht
  obtain ⟨u, hu, rfl⟩ := ht
  by_cases h : u.surface_type = SurfaceType.Application
  · simp [h, DisplaySurface.ClearUpdate]
  · rw [if_neg] at happ
    · exact absurd happ h
    · simp [h]

/-- C1: For every channel-open event, `OnChannelOpen` rejects with
`EPERM` (leaving the state unchanged) if and only if a
`DisplayManagerChannel` is currently live or the requesting identity is
untrusted (not the platform root identity and not in the trusted-identity
set); otherwise it accepts, constructs a new `DisplayManager` bound to
the message's channel handle and records it as the sole live session. -/
theorem onChannelOpen_admission_policy (tid : Int → Bool) (s : ServiceState)
    (uid cid : Int) :
    ((OnChannelOpen tid s uid cid = (Except.error EPERM, s)) ↔
      (s.display_manager.isSome = true ∨
        ¬(uid = AID_ROOT ∨ tid uid = true))) ∧
    (s.display_manager = none → (uid = AID_ROOT ∨ tid uid = true) →
      OnChannelOpen tid s uid cid =
        (Except.ok ⟨cid, 0⟩,
          { s with display_manager := some ⟨cid, 0⟩,
                   openChannels := s.openChannels ++ [cid] })) := by
  by_cases hb : (s.display_manager.isSome || !(trusted tid uid)) = true
  · constructor
    · constructor
      · intro _
        exact (reject_cond_iff tid s uid).mp hb
      · intro _
        simp [OnChannelOpen, hb]
    · intro h1 h2
      exfalso
      rcases (reject_cond_iff tid s uid).mp hb with h | h
      · rw [h1] at h
        simp at h
      · exact h h2
  · constructor
    · constructor
      · intro heq
        exfalso
        rw [OnChannelOpen, if_neg hb] at heq
        simp at heq
      · intro h
        exact absurd ((reject_cond_iff tid s uid).mpr h) hb
    · intro _ _
      rw [OnChannelOpen, if_neg hb]

/-- Witness for C1: from the initial state, identity 0 (root) is admitted
on channel handle 7 even when the trusted-identity set is empty. -/
theorem onChannelOpen_admission_policy_witness :
    OnChannelOpen (fun _ => false) (initState []) 0 7 =
      (Except.ok ⟨7, 0⟩,
        { initState [] with display_manager := some ⟨7, 0⟩,
                            openChannels := [7] }) := by
  have h := (onChannelOpen_admission_policy (fun _ => false)
    (initState []) 0 7).2 rfl (Or.inl rfl)
  simpa using h

/-- C3: For every state with a live session, `OnGetSurfaceState` succeeds
(never an error) and returns one snapshot per application surface in
enumeration order; it clears each enumerated surface's update-flags and
disarms the live channel's notification-pending flag, so the flag is
false immediately after the call. -/
theorem onGetSurfaceState_spec (s : ServiceState) (dm : DisplayManager)
    (h : s.display_manager = some dm) :
    ∃ items s',
      OnGetSurfaceState s = some (items, s') ∧
      items = (s.surfaces.filter
        (fun t => t.surface_type == SurfaceType.Application)).map
          toSurfaceState ∧
      s'.surfaces = clearUpdates s.surfaces ∧
      (∀ t ∈ s'.surfaces, t.surface_type = SurfaceType.Application →
        t.update_flags = 0) ∧
      ∃ dm', s'.display_manager = some dm' ∧ dm'.events &&& POLLIN = 0 := by
  refine ⟨getSurfaceStateItems s.surfaces,
    { s with surfaces := clearUpdates s.surfaces,
             display_manager := some (dm.SetNotificationsPending none false) },
    ?_, rfl, rfl, clearUpdates_app_flags s.surfaces,
    dm.SetNotificationsPending none false, rfl, ?_⟩
  · simp [OnGetSurfaceState, h]
  · simp only [DisplayManager.SetNotificationsPending, modifyChannelEvents,
      POLLIN, if_neg, Bool.false_eq_true, if_false, Nat.or_zero]
    exact sub_and_one_and_one dm.events

/-- Witness for C3: a live session over a one-surface registry yields the
snapshot of that surface and a disarmed flag. -/
theorem onGetSurfaceState_spec_witness :
    ∃ items s',
      OnGetSurfaceState
        ⟨some ⟨3, 1⟩, [⟨1, 2, 3, SurfaceType.Application, 4, 5, []⟩], [3]⟩ =
        some (items, s') ∧
      items = ([⟨1, 2, 3, SurfaceType.Application, 4, 5, []⟩].filter
        (fun t => t.surface_type == SurfaceType.Application)).map
          toSurfaceState ∧
      s'.surfaces =
        clearUpdates [⟨1, 2, 3, SurfaceType.Application, 4, 5, []⟩] ∧
      (∀ t ∈ s'.surfaces, t.surface_type = SurfaceType.Application →
        t.update_flags = 0) ∧
      ∃ dm', s'.display_manager = some dm' ∧ dm'.events &&& POLLIN = 0 :=
  onGetSurfaceState_spec
    ⟨some ⟨3, 1⟩, [⟨1, 2, 3, SurfaceType.Application, 4, 5, []⟩], [3]⟩
    ⟨3, 1⟩ rfl

/-- C5: `OnGetSurfaceQueue` returns `EINVAL` if no surface has the given
id, if the surface is not of application type, or if it has no queue with
the given id; if the queue exists, the status of the consumer-handle
creation (an internal error, or the transferable handle) is returned
unchanged. -/
theorem onGetSurfaceQueue_errors (surfaces : List DisplaySurface)
    (sid qid : Int) :
    ((∀ t ∈ surfaces, ¬(t.surface_id = sid)) →
      OnGetSurfaceQueue surfaces sid qid = Except.error EINVAL) ∧
    (∀ surface, getDisplaySurface surfaces sid = some surface →
      surface.surface_type ≠ SurfaceType.Application →
      OnGetSurfaceQueue surfaces sid qid = Except.error EINVAL) ∧
    (∀ surface, getDisplaySurface surfaces sid = some surface →
      surface.surface_type = SurfaceType.Application →
      surface.GetQueue qid = none →
      OnGetSurfaceQueue surfaces sid qid = Except.error EINVAL) ∧
    (∀ surface queue e, getDisplaySurface surfaces sid = some surface →
      surface.surface_type = SurfaceType.Application →
      surface.GetQueue qid = some queue →
      queue.createConsumerQueueHandle = Except.error e →
      OnGetSurfaceQueue surfaces sid qid = Except.error e) ∧
    (∀ surface queue handle, getDisplaySurface surfaces sid = some surface →
      surface.surface_type = SurfaceType.Application →
      surface.GetQueue qid = some queue →
      queue.createConsumerQueueHandle = Except.ok handle →
      OnGetSurfaceQueue surfaces sid qid = Except.ok handle) := by
  refine ⟨?_, ?_, ?_, ?_, ?_⟩
  · intro hmiss
    have hnone : getDisplaySurface surfaces sid = none := by
      simp [getDisplaySurface, List.find?_eq_none]
      exact hmiss
    simp [OnGetSurfaceQueue, hnone]
  · intro surface hfind htype
    simp [OnGetSurfaceQueue, hfind, bne_iff_ne, htype]
  · intro surface hfind htype hq
    simp [OnGetSurfaceQueue, hfind, bne_iff_ne, htype, hq]
  · intro surface queue e hfind htype hq hc
    simp [OnGetSurfaceQueue, hfind, bne_iff_ne, htype, hq, hc]
  · intro surface queue handle hfind htype hq hc
    simp [OnGetSurfaceQueue, hfind, bne_iff_ne, htype, hq, hc]

/-- Witness for C5: on a registry holding one application surface with
one queue whose consumer-handle creation succeeds with handle 9, the
handler returns that handle; on the empty registry it returns `EINVAL`. -/
theorem onGetSurfaceQueue_errors_witness :
    OnGetSurfaceQueue
      [⟨1, 2, 3, SurfaceType.Application, 0, 0, [⟨4, Except.ok 9⟩]⟩] 1 4 =
      Except.ok 9 ∧
    OnGetSurfaceQueue [] 1 4 = Except.error EINVAL := by
  constructor
  · exact (onGetSurfaceQueue_errors
      [⟨1, 2, 3, SurfaceType.Application, 0, 0, [⟨4, Except.ok 9⟩]⟩]
      1 4).2.2.2.2 ⟨1, 2, 3, SurfaceType.Application, 0, 0,
        [⟨4, Except.ok 9⟩]⟩ ⟨4, Except.ok 9⟩ 9 rfl rfl rfl rfl
  · exact (onGetSurfaceQueue_errors [] 1 4).1 (by simp)

/-- C6: `OnSetupNamedBuffer` returns `EPERM` for an untrusted requester
without invoking the display-service collaborator (the call log and the
whole collaborator state are unchanged); for a trusted requester it
forwards the request and returns the collaborator's result unchanged. -/
theorem onSetupNamedBuffer_trust (tid : Int → Bool)
    (svc : DisplayServiceModel) (uid : Int) (name : String)
    (size usage : Nat) :
    (¬(uid = AID_ROOT ∨ tid uid = true) →
      OnSetupNamedBuffer tid svc uid name size usage =
        (Except.error EPERM, svc)) ∧
    ((uid = AID_ROOT ∨ tid uid = true) →
      OnSetupNamedBuffer tid svc uid name size usage =
        (svc.namedBufferResult name size usage,
          { svc with namedBufferCalls :=
              svc.namedBufferCalls ++ [(name, size, usage)] })) := by
  constructor
  · intro h
    have hb : (!(trusted tid uid)) = true := by
      rw [not_or] at h
      simp [trusted, h.1]
      cases htid : tid uid
      · rfl
      · exact absurd htid h.2
    rw [OnSetupNamedBuffer, if_pos hb]
  · intro h
    have hb : trusted tid uid = true := by
      rcases h with h | h
      · simp [trusted, h]
      · simp [trusted, h]
    rw [OnSetupNamedBuffer]
    simp [hb, DisplayServiceModel.SetupNamedBuffer]

/-- Witness for C6: identity 9 (untrusted under the empty trusted set) is
denied and the collaborator's ghost call log stays empty. -/
theorem onSetupNamedBuffer_trust_witness :
    OnSetupNamedBuffer (fun _ => false) ⟨fun _ _ _ => Except.ok 5, []⟩ 9
        "buf" 1 2 =
      (Except.error EPERM, ⟨fun _ _ _ => Except.ok 5, []⟩) :=
  (onSetupNamedBuffer_trust (fun _ => false) ⟨fun _ _ _ => Except.ok 5, []⟩
    9 "buf" 1 2).1 (by decide)

/-- C7: `OnGetConfigurationData` returns `EINVAL` for an unmapped config
type; for a mapped type it reads the type's fixed property name and
returns `ENOENT` when the property resolves to an empty path, the errno
of a failed file read, and the file's exact contents on success. -/
theorem onGetConfigurationData_spec (env : Env) :
    (∀ v, OnGetConfigurationData env (ConfigFileType.unmapped v) =
      Except.error EINVAL) ∧
    (∀ t pn,
      ((t = ConfigFileType.kLensMetrics ∧ pn = kDvrLensMetricsProperty) ∨
       (t = ConfigFileType.kDeviceMetrics ∧
         pn = kDvrDeviceMetricsProperty) ∨
       (t = ConfigFileType.kDeviceConfiguration ∧
         pn = kDvrDeviceConfigProperty)) →
      ((env.getProperty pn = "" →
        OnGetConfigurationData env t = Except.error ENOENT) ∧
       (∀ e, env.getProperty pn ≠ "" →
        env.readFile (env.getProperty pn) = Except.error e →
        OnGetConfigurationData env t = Except.error e) ∧
       (∀ data, env.getProperty pn ≠ "" →
        env.readFile (env.getProperty pn) = Except.ok data →
        OnGetConfigurationData env t = Except.ok data))) := by
  constructor
  · intro v
    rfl
  · intro t pn h
    rcases h with ⟨rfl, rfl⟩ | ⟨rfl, rfl⟩ | ⟨rfl, rfl⟩ <;>
      refine ⟨?_, ?_, ?_⟩ <;>
      first
      | (intro h1
         simp [OnGetConfigurationData, h1])
      | (intro x h1 h2
         simp [OnGetConfigurationData, h1, h2])

/-- Witness for C7: with the device-metrics property unset the handler
returns `ENOENT`. -/
theorem onGetConfigurationData_spec_witness :
    OnGetConfigurationData ⟨fun _ => "", fun _ => Except.error 5⟩
      ConfigFileType.kDeviceMetrics = Except.error ENOENT :=
  ((onGetConfigurationData_spec
      ⟨fun _ => "", fun _ => Except.error 5⟩).2
    ConfigFileType.kDeviceMetrics kDvrDeviceMetricsProperty
    (Or.inr (Or.inl ⟨rfl, rfl⟩))).1 rfl

/-- C8: `SetNotificationsPending` with a working transport sets the
readable-for-events bit and leaves nothing else armed when `pending` is
true (the mask holds exactly `POLLIN`, with the writable bit clear), and
clears it back to the idle mask when `pending` is false; a failing
transport call is swallowed: the channel is unchanged, nothing escalates,
and subsequent message handling is unaffected. -/
theorem setNotificationsPending_spec (dm : DisplayManager) (pending : Bool)
    (h : dm.events = 0 ∨ dm.events = POLLIN) :
    ((dm.SetNotificationsPending none pending).events =
      (if pending then POLLIN else 0)) ∧
    ((dm.SetNotificationsPending none pending).events &&& POLLOUT = 0) ∧
    (∀ e, dm.SetNotificationsPending (some e) pending = dm) ∧
    (∀ (e : Nat) (tid : Int → Bool) (env : Env)
        (svc : DisplayServiceModel) (s : ServiceState) (uid : Int)
        (req : Request),
      HandleMessage tid env svc
          { s with
            display_manager :=
              some (dm.SetNotificationsPending (some e) pending) }
          uid req =
        HandleMessage tid env svc { s with display_manager := some dm }
          uid req) := by
  have hun : ∀ e, dm.SetNotificationsPending (some e) pending = dm :=
    fun e => rfl
  refine ⟨?_, ?_, hun, ?_⟩
  · rw [POLLIN] at h
    rcases h with h | h <;> cases pending <;>
      simp [DisplayManager.SetNotificationsPending, modifyChannelEvents,
        POLLIN, h]
  · rw [POLLIN] at h
    rcases h with h | h <;> cases pending <;>
      simp [DisplayManager.SetNotificationsPending, modifyChannelEvents,
        POLLIN, POLLOUT, h]
  · intro e tid env svc s uid req
    rw [hun e]

/-- Witness for C8: arming notifications on an idle channel yields
exactly the `POLLIN` mask, and a failed toggle leaves the channel as it
was. -/
theorem setNotificationsPending_spec_witness :
    ((⟨7, 0⟩ : DisplayManager).SetNotificationsPending none true).events =
      POLLIN ∧
    (⟨7, 0⟩ : DisplayManager).SetNotificationsPending (some 5) true =
      ⟨7, 0⟩ := by
  have h := setNotificationsPending_spec ⟨7, 0⟩ true (Or.inl rfl)
  exact ⟨by simpa using h.1, h.2.2.1 5⟩

/-- C10: `GetSurfaceState`, `GetSurfaceQueue` and `GetConfigurationData`
never read the per-message identity: two messages differing only in the
requester's identity produce identical replies and identical state
changes; `SetupNamedBuffer`, by contrast, can tell identities apart. -/
theorem handleMessage_identity_independent (tid : Int → Bool) (env : Env)
    (svc : DisplayServiceModel) (s : ServiceState) (uid1 uid2 : Int) :
    (HandleMessage tid env svc s uid1 Request.getSurfaceState =
      HandleMessage tid env svc s uid2 Request.getSurfaceState) ∧
    (∀ sid qid,
      HandleMessage tid env svc s uid1 (Request.getSurfaceQueue sid qid) =
      HandleMessage tid env svc s uid2 (Request.getSurfaceQueue sid qid)) ∧
    (∀ t,
      HandleMessage tid env svc s uid1 (Request.getConfigurationData t) =
      HandleMessage tid env svc s uid2 (Request.getConfigurationData t)) ∧
    (∃ tid' env' svc' s' uid1' uid2' name size usage,
      HandleMessage tid' env' svc' s' uid1'
          (Request.setupNamedBuffer name size usage) ≠
        HandleMessage tid' env' svc' s' uid2'
          (Request.setupNamedBuffer name size usage)) := by
  refine ⟨rfl, fun _ _ => rfl, fun _ => rfl, ?_⟩
  refine ⟨fun _ => false, ⟨fun _ => "", fun _ => Except.error 1⟩,
    ⟨fun _ _ _ => Except.ok 5, []⟩, initState [], 0, 9, "b", 1, 2, ?_⟩
  intro hcontra
  norm_num [HandleMessage, OnSetupNamedBuffer, trusted, AID_ROOT, EPERM,
    DisplayServiceModel.SetupNamedBuffer] at hcontra

/-- Witness for C10: a root-identity and a non-root-identity
`GetSurfaceState` message on the admitted channel get the same reply and
leave the same state. -/
theorem handleMessage_identity_independent_witness :
    HandleMessage (fun _ => false) ⟨fun _ => "", fun _ => Except.error 1⟩
        ⟨fun _ _ _ => Except.ok 5, []⟩ ⟨some ⟨7, 0⟩, [], [7]⟩ 0
        Request.getSurfaceState =
      HandleMessage (fun _ => false) ⟨fun _ => "", fun _ => Except.error 1⟩
        ⟨fun _ _ _ => Except.ok 5, []⟩ ⟨some ⟨7, 0⟩, [], [7]⟩ 9
        Request.getSurfaceState :=
  (handleMessage_identity_independent (fun _ => false)
    ⟨fun _ => "", fun _ => Except.error 1⟩ ⟨fun _ _ _ => Except.ok 5, []⟩
    ⟨some ⟨7, 0⟩, [], [7]⟩ 0 9).1

/-- The initial state satisfies the single-session invariant. -/
theorem Inv_init (σ : List DisplaySurface) : Inv (initState σ) := rfl

/-- Every step of the endpoint preserves the single-session invariant. -/
theorem step_inv (tid : Int → Bool) (s s' : ServiceState) (e : Event)
    (hI : Inv s) (hs : step tid s e = some s') : Inv s' := by
  cases e with
  | chanOpen uid cid =>
    simp only [step, Option.some.injEq] at hs
    by_cases hb : (s.display_manager.isSome || !(trusted tid uid)) = true
    · rw [OnChannelOpen, if_pos hb] at hs
      rw [← hs]
      exact hI
    · rw [OnChannelOpen, if_neg hb] at hs
      have hdm : s.display_manager = none := by
        cases hdm : s.display_manager with
        | none => rfl
        | some dm => rw [hdm] at hb; simp at hb
      have hoc : s.openChannels = [] := by
        rw [Inv, hdm] at hI
        exact hI
      rw [← hs, Inv]
      simp [hoc]
  | chanClose cid =>
    simp only [step, Option.some.injEq] at hs
    cases hdm : s.display_manager with
    | none =>
      have hoc : s.openChannels = [] := by rw [Inv, hdm] at hI; exact hI
      rw [← hs, OnChannelClose, Inv]
      simp [hdm, hoc]
    | some dm =>
      have hoc : s.openChannels = [dm.channel_id] := by
        rw [Inv, hdm] at hI; exact hI
      by_cases hc : dm.channel_id = cid
      · rw [← hs, OnChannelClose, Inv]
        simp [hdm, hoc, hc, List.erase_cons]
      · rw [← hs, OnChannelClose, Inv]
        simp [hdm, hoc, hc, List.erase_cons]
  | msgGetSurfaceState cid =>
    cases hdm : s.display_manager with
    | none => simp [step, OnGetSurfaceState, hdm] at hs
    | some dm =>
      have hoc : s.openChannels = [dm.channel_id] := by
        rw [Inv, hdm] at hI; exact hI
      simp only [step, OnGetSurfaceState, hdm, Option.map_some',
        Option.some.injEq] at hs
      rw [← hs, Inv]
      simpa using hoc
  | msgOther cid =>
    simp only [step, Option.some.injEq] at hs
    rw [← hs]
    exact hI
  | surfaceChange σ2 =>
    simp only [step, Option.some.injEq] at hs
    cases hdm : s.display_manager with
    | none =>
      have hoc : s.openChannels = [] := by rw [Inv, hdm] at hI; exact hI
      rw [← hs, OnDisplaySurfaceChange]
      simp only [hdm]
      rw [Inv]
      simp [hdm, hoc]
    | some dm =>
      have hoc : s.openChannels = [dm.channel_id] := by
        rw [Inv, hdm] at hI; exact hI
      rw [← hs, OnDisplaySurfaceChange]
      simp only [hdm]
      rw [Inv]
      simpa using hoc

/-- Whole runs of the endpoint preserve the single-session invariant. -/
theorem run_inv (tid : Int → Bool) :
    ∀ (tr : List Event) (s s' : ServiceState),
      Inv s → run tid s tr = some s' → Inv s' := by
  intro tr
  induction tr with
  | nil =>
    intro s s' hI h
    rw [run, Option.some.injEq] at h
    rw [← h]
    exact hI
  | cons e tr ih =>
    intro s s' hI h
    rw [run] at h
    cases hs : step tid s e with
    | none => rw [hs] at h; simp at h
    | some s1 =>
      rw [hs] at h
      exact ih s1 s' (step_inv tid s s1 e hI hs) h

/-- C2: In every state reachable by channel-open, channel-close and
message events, at most one `DisplayManagerChannel` exists (the open
channel set has at most one element and is exactly the live session's
channel); any admission attempt while one is live is rejected with
`EPERM` leaving the state unchanged, and a channel-close clears the
live-session slot exactly when it closes the live channel. -/
theorem reachable_single_session (tid : Int → Bool)
    (σ : List DisplaySurface) (tr : List Event) (s' : ServiceState)
    (h : run tid (initState σ) tr = some s') :
    s'.openChannels.length ≤ 1 ∧
    (∀ dm, s'.display_manager = some dm →
      s'.openChannels = [dm.channel_id]) ∧
    (s'.display_manager = none → s'.openChannels = []) ∧
    (∀ dm uid cid, s'.display_manager = some dm →
      OnChannelOpen tid s' uid cid = (Except.error EPERM, s')) ∧
    (∀ dm cid, s'.display_manager = some dm →
      ((OnChannelClose s' cid).display_manager = none ↔
        cid = dm.channel_id)) := by
  have hI : Inv s' := run_inv tid tr (initState σ) s' (Inv_init σ) h
  refine ⟨?_, ?_, ?_, ?_, ?_⟩
  · cases hdm : s'.display_manager with
    | none => rw [Inv, hdm] at hI; rw [hI]; simp
    | some dm => rw [Inv, hdm] at hI; rw [hI]; simp
  · intro dm hdm
    rw [Inv, hdm] at hI
    exact hI
  · intro hdm
    rw [Inv, hdm] at hI
    exact hI
  · intro dm uid cid hdm
    rw [OnChannelOpen, if_pos]
    simp [hdm]
  · intro dm cid hdm
    rw [OnChannelClose]
    simp only [hdm]
    by_cases hc : dm.channel_id = cid
    · simp [hc]
    · simp [hc, Ne.symm hc]

/-- Witness for C2: after root is admitted on channel 7, a further
admission attempt (here by root itself on channel 9) is rejected with
`EPERM` and changes nothing. -/
theorem reachable_single_session_witness :
    OnChannelOpen (fun _ => false) ⟨some ⟨7, 0⟩, [], [7]⟩ 0 9 =
      (Except.error EPERM, ⟨some ⟨7, 0⟩, [], [7]⟩) := by
  have h := reachable_single_session (fun _ => false) []
    [Event.chanOpen 0 7] ⟨some ⟨7, 0⟩, [], [7]⟩ rfl
  exact h.2.2.2.1 ⟨7, 0⟩ 0 9 rfl

/-- Under the lifecycle contract, every delivered message finds a live
session, so the unchecked dereference never fires. -/
theorem contract_no_crash (tid : Int → Bool) :
    ∀ (tr : List Event) (s : ServiceState), Inv s →
      contractOK tid s tr = true → (run tid s tr).isSome = true := by
  intro tr
  induction tr with
  | nil =>
    intro s _ _
    rw [run]
    rfl
  | cons e tr ih =>
    intro s hI h
    cases e with
    | chanOpen uid cid =>
      rw [contractOK, Bool.and_eq_true] at h
      have hs1 : step tid s (Event.chanOpen uid cid) =
          some (stepTotal tid s (Event.chanOpen uid cid)) := rfl
      rw [run, hs1]
      exact ih _ (step_inv tid s _ _ hI hs1) h.2
    | chanClose cid =>
      rw [contractOK, Bool.and_eq_true] at h
      have hs1 : step tid s (Event.chanClose cid) =
          some (stepTotal tid s (Event.chanClose cid)) := rfl
      rw [run, hs1]
      exact ih _ (step_inv tid s _ _ hI hs1) h.2
    | msgOther cid =>
      rw [contractOK, Bool.and_eq_true] at h
      have hs1 : step tid s (Event.msgOther cid) =
          some (stepTotal tid s (Event.msgOther cid)) := rfl
      rw [run, hs1]
      exact ih _ (step_inv tid s _ _ hI hs1) h.2
    | surfaceChange σ2 =>
      rw [contractOK, Bool.and_eq_true] at h
      have hs1 : step tid s (Event.surfaceChange σ2) =
          some (stepTotal tid s (Event.surfaceChange σ2)) := rfl
      rw [run, hs1]
      exact ih _ (step_inv tid s _ _ hI hs1) h.2
    | msgGetSurfaceState cid =>
      rw [contractOK, Bool.and_eq_true] at h
      obtain ⟨hpre, hrest⟩ := h
      have hpre' : s.openChannels.contains cid = true := hpre
      cases hdm : s.display_manager with
      | none =>
        exfalso
        have hoc : s.openChannels = [] := by rw [Inv, hdm] at hI; exact hI
        rw [hoc] at hpre'
        simp at hpre'
      | some dm =>
        have hs1 : step tid s (Event.msgGetSurfaceState cid) =
            some (stepTotal tid s (Event.msgGetSurfaceState cid)) := by
          simp [step, stepTotal, OnGetSurfaceState, hdm]
        rw [run, hs1]
        exact ih _ (step_inv tid s _ _ hI hs1) hrest

/-- C9: Under the transport's lifecycle contract (messages are delivered
only on an open channel), every trace runs to completion: the unchecked
dereference of the live-session reference in the `GetSurfaceState`
handler is safe, its error-free branch being the only one exercised. -/
theorem lifecycle_contract_no_null_deref (tid : Int → Bool)
    (σ : List DisplaySurface) (tr : List Event)
    (h : contractOK tid (initState σ) tr = true) :
    (run tid (initState σ) tr).isSome = true :=
  contract_no_crash tid tr (initState σ) (Inv_init σ) h

/-- Witness for C9: the scenario open-then-poll runs without hitting the
undefined-behaviour branch. -/
theorem lifecycle_contract_no_null_deref_witness :
    (run (fun _ => false) (initState [])
      [Event.chanOpen 0 7, Event.msgGetSurfaceState 7]).isSome = true :=
  lifecycle_contract_no_null_deref (fun _ => false) []
    [Event.chanOpen 0 7, Event.msgGetSurfaceState 7] rfl

/-- Arming notifications sets the `POLLIN` bit on top of the current
mask. -/
theorem snp_true_events (dm : DisplayManager) :
    (dm.SetNotificationsPending none true).events = dm.events ||| POLLIN := by
  simp [DisplayManager.SetNotificationsPending, modifyChannelEvents, POLLIN]

/-- Disarming notifications clears the `POLLIN` bit of the current
mask. -/
theorem snp_false_events (dm : DisplayManager) :
    (dm.SetNotificationsPending none false).events =
      dm.events - (dm.events &&& POLLIN) := by
  simp [DisplayManager.SetNotificationsPending, modifyChannelEvents, POLLIN]

/-- From a mask in flag form, arming yields exactly `POLLIN`. -/
theorem snp_true_of_flag (dm : DisplayManager) (f : Bool)
    (he : dm.events = if f then POLLIN else 0) :
    (dm.SetNotificationsPending none true).events = POLLIN := by
  rw [snp_true_events, he]
  cases f <;> decide

/-- From a mask in flag form, disarming yields exactly the idle mask. -/
theorem snp_false_of_flag (dm : DisplayManager) (f : Bool)
    (he : dm.events = if f then POLLIN else 0) :
    (dm.SetNotificationsPending none false).events = 0 := by
  rw [snp_false_events, he]
  cases f <;> decide

/-- The code's `POLLIN` bit tracks the specification-side flag along
every step of a trace. -/
theorem runFlag_inv (tid : Int → Bool) :
    ∀ (tr : List Event) (s : ServiceState) (f : Bool)
      (s' : ServiceState) (f' : Bool),
      FlagInv s f → runFlag tid s f tr = some (s', f') → FlagInv s' f' := by
  intro tr
  induction tr with
  | nil =>
    intro s f s' f' hF h
    rw [runFlag, Option.some.injEq, Prod.mk.injEq] at h
    obtain ⟨h1, h2⟩ := h
    rw [← h1, ← h2]
    exact hF
  | cons e tr ih =>
    intro s f s' f' hF h
    cases e with
    | chanOpen uid cid =>
      cases hdm : s.display_manager with
      | some dm =>
        have hs1 : step tid s (Event.chanOpen uid cid) = some s := by
          simp [step, OnChannelOpen, hdm]
        have hflag : specFlagStep tid s f (Event.chanOpen uid cid) = f := by
          simp [specFlagStep, hdm]
        rw [runFlag, hs1, hflag] at h
        exact ih s f s' f' hF h
      | none =>
        by_cases ht : trusted tid uid = true
        · have hs1 : step tid s (Event.chanOpen uid cid) =
              some { s with display_manager := some ⟨cid, 0⟩,
                            openChannels := s.openChannels ++ [cid] } := by
            simp [step, OnChannelOpen, hdm, ht]
          have hflag :
              specFlagStep tid s f (Event.chanOpen uid cid) = false := by
            simp [specFlagStep, hdm, ht]
          rw [runFlag, hs1, hflag] at h
          refine ih _ false s' f' ?_ h
          intro dm0 hdm0
          injection hdm0 with h0
          rw [← h0]
          rfl
        · have hs1 : step tid s (Event.chanOpen uid cid) = some s := by
            simp [step, OnChannelOpen, hdm, ht]
          have hflag : specFlagStep tid s f (Event.chanOpen uid cid) = f := by
            simp [specFlagStep, hdm, ht]
          rw [runFlag, hs1, hflag] at h
          exact ih s f s' f' hF h
    | chanClose cid =>
      have hs1 : step tid s (Event.chanClose cid) =
          some (OnChannelClose s cid) := rfl
      have hflag : specFlagStep tid s f (Event.chanClose cid) = f := rfl
      rw [runFlag, hs1, hflag] at h
      refine ih _ f s' f' ?_ h
      intro dm0 hdm0
      cases hdm : s.display_manager with
      | none =>
        rw [OnChannelClose] at hdm0
        simp [hdm] at hdm0
      | some dm =>
        rw [OnChannelClose] at hdm0
        simp only [hdm] at hdm0
        by_cases hc : (dm.channel_id == cid) = true
        · rw [if_pos hc] at hdm0
          exact absurd hdm0 (by simp)
        · rw [if_neg hc] at hdm0
          injection hdm0 with h0
          rw [← h0]
          exact hF dm hdm
    | msgGetSurfaceState cid =>
      cases hdm : s.display_manager with
      | none =>
        rw [runFlag] at h
        simp [step, OnGetSurfaceState, hdm] at h
      | some dm =>
        have hs1 : step tid s (Event.msgGetSurfaceState cid) =
            some { s with surfaces := clearUpdates s.surfaces,
                          display_manager :=
                            some (dm.SetNotificationsPending none false) } := by
          simp [step, OnGetSurfaceState, hdm]
        have hflag :
            specFlagStep tid s f (Event.msgGetSurfaceState cid) = false := rfl
        rw [runFlag, hs1, hflag] at h
        refine ih _ false s' f' ?_ h
        intro dm0 hdm0
        injection hdm0 with h0
        rw [← h0]
        simp [snp_false_of_flag dm f (hF dm hdm)]
    | msgOther cid =>
      have hs1 : step tid s (Event.msgOther cid) = some s := rfl
      have hflag : specFlagStep tid s f (Event.msgOther cid) = f := rfl
      rw [runFlag, hs1, hflag] at h
      exact ih s f s' f' hF h
    | surfaceChange σ2 =>
      cases hdm : s.display_manager with
      | none =>
        have hs1 : step tid s (Event.surfaceChange σ2) =
            some { s with surfaces := σ2 } := by
          simp [step, OnDisplaySurfaceChange, hdm]
        have hflag : specFlagStep tid s f (Event.surfaceChange σ2) = f := by
          simp [specFlagStep, hdm]
        rw [runFlag, hs1, hflag] at h
        refine ih _ f s' f' ?_ h
        intro dm0 hdm0
        simp [hdm] at hdm0
      | some dm =>
        have hs1 : step tid s (Event.surfaceChange σ2) =
            some { s with surfaces := σ2,
                          display_manager :=
                            some (dm.SetNotificationsPending none true) } := by
          simp [step, OnDisplaySurfaceChange, hdm]
        have hflag :
            specFlagStep tid s f (Event.surfaceChange σ2) = true := by
          simp [specFlagStep, hdm]
        rw [runFlag, hs1, hflag] at h
        refine ih _ true s' f' ?_ h
        intro dm0 hdm0
        injection hdm0 with h0
        rw [← h0]
        simp [snp_true_of_flag dm f (hF dm hdm)]

/-- C4: While a channel is live, its `POLLIN` bit is armed exactly when
the specification-side flag says a surface mutation happened since the
last `GetSurfaceState` (or since channel creation); a mutation with no
live channel changes nothing, and a mutation on an already-armed channel
leaves it armed (arming happens exactly once however many mutations
occur before the next poll). -/
theorem notification_flag_iff (tid : Int → Bool) (σ : List DisplaySurface)
    (tr : List Event) (s' : ServiceState) (f' : Bool)
    (h : runFlag tid (initState σ) false tr = some (s', f')) :
    (∀ dm, s'.display_manager = some dm →
      (dm.events = POLLIN ↔ f' = true)) ∧
    (∀ s2 : ServiceState, s2.display_manager = none →
      OnDisplaySurfaceChange s2 = s2) ∧
    (∀ dm : DisplayManager, dm.events = POLLIN →
      dm.SetNotificationsPending none true = dm) := by
  have hF : FlagInv s' f' := by
    refine runFlag_inv tid tr (initState σ) false s' f' ?_ h
    intro dm hdm
    simp [initState] at hdm
  refine ⟨?_, ?_, ?_⟩
  · intro dm hdm
    have he := hF dm hdm
    cases f' with
    | false =>
      simp at he
      constructor
      · intro h1
        rw [he] at h1
        exact absurd h1 (by decide)
      · intro h1
        exact absurd h1 (by decide)
    | true =>
      simp at he
      simp [he]
  · intro s2 h2
    rw [OnDisplaySurfaceChange]
    simp [h2]
  · intro dm hd
    have hev : (dm.SetNotificationsPending none true).events = dm.events := by
      rw [snp_true_events, hd]
      decide
    have h1 : dm.SetNotificationsPending none true =
        { dm with events := (dm.SetNotificationsPending none true).events } :=
      rfl
    rw [h1, hev]

/-- Witness for C4: after root opens channel 7 and one surface mutation
occurs, the live channel's mask is armed and the specification-side flag
is true. -/
theorem notification_flag_iff_witness :
    (⟨7, 1⟩ : DisplayManager).events = POLLIN ↔ (true = true) := by
  have h := notification_flag_iff (fun _ => false) []
    [Event.chanOpen 0 7, Event.surfaceChange []]
    ⟨some ⟨7, 1⟩, [], [7]⟩ true rfl
  exact h.1 ⟨7, 1⟩ rfl

end Dvr
